import Mathlib

/-
Verification of the locking state-coordination core of the
backblaze-terraform-backend-proxy repository.

The embedding follows the final iteration of the code:
- the protocol handler / lock coordinator `Proxy` (Object, postState,
  lockState, unlockState, getState) from the api file that uses the
  Storer interface with Store/Retrieve/Lock/Unlock, and
- the storage adapter `B2` (Retrieve, Store, Lock, Unlock) that talks to
  the S3-compatible API of Backblaze with GetObject/PutObject.

The remote bucket is modelled as a single cell holding the raw bytes at
the B2 instance's one key, plus two fault flags that decide whether
GetObject or PutObject calls fail with an I/O error.  The encoding/json
library is modelled as an abstract Codec (a pair of enc/dec functions);
the md5+base64 pipeline of postState is modelled as an abstract digest
function, since postState only ever compares its output for equality.
-/

deriving instance DecidableEq for Except

namespace B2Proxy

/-- Mirrors `Object` of the final api iteration: `LockID string` together
with `State []byte`, the single unit of durable storage. -/
structure Object where
  lockID : String
  state : List Nat
deriving DecidableEq

/-- Outcome of a raw S3 call: the distinguished no-such-key error that
`B2.Retrieve` maps to `ErrNoExist`, or any other I/O failure. -/
inductive S3Err where
  | noSuchKey
  | ioError
deriving DecidableEq

/-- The remote bucket as seen through the one key a `B2` value uses:
`cell` is the raw byte content (none = object absent), `getFails` and
`putFails` inject I/O failures into GetObject resp. PutObject. -/
structure S3 where
  cell : Option (List Nat)
  getFails : Bool
  putFails : Bool
deriving DecidableEq

def S3.getObject (s : S3) : Except S3Err (List Nat) :=
  if s.getFails then .error .ioError
  else
    match s.cell with
    | none => .error .noSuchKey
    | some bs => .ok bs

def S3.putObject (s : S3) (bs : List Nat) : Except S3Err Unit × S3 :=
  if s.putFails then (.error .ioError, s)
  else (.ok (), { s with cell := some bs })

/-- The encoding/json library, abstracted: `enc` is `json.Encode` of an
`Object`, `dec` is `json.Decode` (none = decode failure). -/
structure Codec where
  enc : Object → List Nat
  dec : List Nat → Option Object

/-- Errors of the B2 storage adapter, one constructor per distinct
error return in the source. -/
inductive B2Err where
  | noExist
  | retrieveFailed
  | parseFailed
  | lockCheckRetrieveFailed
  | lockConflict (id holder : String)
  | unlockConflict (id holder : String)
  | storeFailed
deriving DecidableEq

/-- `B2.Retrieve`: GetObject, map NoSuchKey to the ErrNoExist sentinel,
JSON-decode the body. -/
def B2.Retrieve (c : Codec) (s : S3) : Except B2Err Object :=
  match s.getObject with
  | .error .noSuchKey => .error .noExist
  | .error .ioError => .error .retrieveFailed
  | .ok bs =>
    match c.dec bs with
    | none => .error .parseFailed
    | some obj => .ok obj

/-- `B2.Store`: JSON-encode the object and PutObject it. -/
def B2.Store (c : Codec) (obj : Object) (s : S3) : Except B2Err Unit × S3 :=
  match s.putObject (c.enc obj) with
  | (.error _, s1) => (.error .storeFailed, s1)
  | (.ok _, s1) => (.ok (), s1)

/-- `B2.Lock id`: GetObject (any failure, NoSuchKey included, is wrapped
as a retrieve-to-check-lock-status error), decode, reject when held by a
different id, else write the object back with `LockID = id`.  The source
discards the PutObject result (the `err` tested afterwards is the stale
GetObject error, necessarily nil at that point), so the final write's
outcome never influences the return value — modelled by keeping only the
successor state of `putObject` and returning ok unconditionally. -/
def B2.Lock (c : Codec) (id : String) (s : S3) : Except B2Err Unit × S3 :=
  match s.getObject with
  | .error _ => (.error .lockCheckRetrieveFailed, s)
  | .ok bs =>
    match c.dec bs with
    | none => (.error .parseFailed, s)
    | some obj =>
      if obj.lockID ≠ "" ∧ obj.lockID ≠ id then
        (.error (.lockConflict id obj.lockID), s)
      else
        (.ok (), (s.putObject (c.enc { obj with lockID := id })).2)

/-- `B2.Unlock id`: same shape as `B2.Lock`, writing back `LockID = ""`;
the PutObject result is discarded in the source here as well. -/
def B2.Unlock (c : Codec) (id : String) (s : S3) : Except B2Err Unit × S3 :=
  match s.getObject with
  | .error _ => (.error .lockCheckRetrieveFailed, s)
  | .ok bs =>
    match c.dec bs with
    | none => (.error .parseFailed, s)
    | some obj =>
      if obj.lockID ≠ "" ∧ obj.lockID ≠ id then
        (.error (.unlockConflict id obj.lockID), s)
      else
        (.ok (), (s.putObject (c.enc { obj with lockID := "" })).2)

/-- Errors of the Proxy layer, one constructor per distinct return in the
source; wrapping constructors carry the storer error they interpolate. -/
inductive PErr where
  | invalidChecksum
  | postRetrieveFailed (e : B2Err)
  | postLockConflict (id holder : String)
  | postStoreFailed (e : B2Err)
  | createLockFailed (e : B2Err)
  | lockRetrieveFailed (e : B2Err)
  | lockConflict (id holder : String)
  | unlockRetrieveFailed (e : B2Err)
  | unlockConflict (id holder : String)
  | storerFailed (e : B2Err)
  | getFailed (e : B2Err)
deriving DecidableEq

/-- Error text of the storage adapter, mirroring its fmt.Errorf format
strings (text the S3 library would interpolate is left as a stub). -/
def B2Err.message : B2Err → String
  | .noExist => "file does not exist (yet!)"
  | .retrieveFailed => "failed to retrieve object: io error"
  | .parseFailed => "failed to parse remote state object"
  | .lockCheckRetrieveFailed => "failed to retrieve object to check lock status"
  | .lockConflict id holder =>
      "unable to lock with id " ++ id ++ " - currently locked by id " ++ holder
  | .unlockConflict id holder =>
      "unable to unlock using id " ++ id ++ " - currently locked by id " ++ holder
  | .storeFailed => "failed to upload file"

/-- Error text of the Proxy layer, mirroring its fmt.Errorf format
strings; `storerFailed` is the error a lockState/unlockState returns
unchanged from the storer, so its text is the storer's. -/
def PErr.message : PErr → String
  | .invalidChecksum => "invalid checksum"
  | .postRetrieveFailed e => "failed to retrieve document for updating: " ++ e.message
  | .postLockConflict id holder =>
      "unallowed to unlock, your lockID is " ++ id ++ " and you need " ++ holder
  | .postStoreFailed e => "failed to store file: " ++ e.message
  | .createLockFailed e => "failed to create and lock new state file: " ++ e.message
  | .lockRetrieveFailed e => "failed to retrieve document for updating: " ++ e.message
  | .lockConflict id holder =>
      "unable to lock with id " ++ id ++ "- file currently locked with lock ID " ++ holder
  | .unlockRetrieveFailed e => "failed to retrieve document for updating: " ++ e.message
  | .unlockConflict id holder =>
      "unable to unlock with lock ID " ++ id ++ " - file currently locked with lock ID " ++ holder
  | .storerFailed e => e.message
  | .getFailed e => "failed to get state: " ++ e.message

/-- True exactly on the constructors the spec's taxonomy files under
LockConflict (409); retrieval/store wrappers are StorageError (500). -/
def PErr.isLockConflict : PErr → Bool
  | .postLockConflict _ _ => true
  | .lockConflict _ _ => true
  | .unlockConflict _ _ => true
  | _ => false

/-- `Proxy.getState`: Retrieve and return the object's State bytes. -/
def Proxy.getState (c : Codec) (s : S3) : Except PErr (List Nat) :=
  match B2.Retrieve c s with
  | .error e => .error (.getFailed e)
  | .ok obj => .ok obj.state

/-- The single store site postState falls through to: build
`Object{LockID: lockID, State: bs}` and `p.Store` it. -/
def Proxy.storeNew (c : Codec) (lockID : String) (bs : List Nat) (s : S3) :
    Except PErr Unit × S3 :=
  match B2.Store c { lockID := lockID, state := bs } s with
  | (.error e, s1) => (.error (.postStoreFailed e), s1)
  | (.ok _, s1) => (.ok (), s1)

/-- `Proxy.postState` of the final iteration: compare the digest of the
body bytes with the content-md5 header; when a lock token is supplied,
retrieve the object and require `lockID = obj.LockID`; then store.  The
declared content-length `n` is received but never used (the source reads
the whole body and never compares its size against `n`). -/
def Proxy.postState (c : Codec) (digest : List Nat → String)
    (lockID md5sum : String) (n : Int) (body : List Nat) (s : S3) :
    Except PErr Unit × S3 :=
  if digest body ≠ md5sum then (.error .invalidChecksum, s)
  else if lockID ≠ "" then
    match B2.Retrieve c s with
    | .error e => (.error (.postRetrieveFailed e), s)
    | .ok obj =>
      if lockID ≠ obj.lockID then (.error (.postLockConflict lockID obj.lockID), s)
      else Proxy.storeNew c lockID body s
  else Proxy.storeNew c lockID body s

/-- `Proxy.lockState id`: Retrieve; on ErrNoExist create and store a
fresh `Object{LockID: id, State: nil}`; on any other retrieval error
wrap it; reject whenever the retrieved object's LockID is non-empty
(note: even when it already equals `id`); otherwise delegate to the
storer's Lock, whose error is returned unchanged. -/
def Proxy.lockState (c : Codec) (id : String) (s : S3) : Except PErr Unit × S3 :=
  match B2.Retrieve c s with
  | .error .noExist =>
    match B2.Store c { lockID := id, state := [] } s with
    | (.error e, s1) => (.error (.createLockFailed e), s1)
    | (.ok _, s1) => (.ok (), s1)
  | .error e => (.error (.lockRetrieveFailed e), s)
  | .ok obj =>
    if obj.lockID ≠ "" then (.error (.lockConflict id obj.lockID), s)
    else
      match B2.Lock c id s with
      | (.error e, s1) => (.error (.storerFailed e), s1)
      | (.ok _, s1) => (.ok (), s1)

/-- `Proxy.unlockState id`: Retrieve (any failure is wrapped), reject
unless the retrieved object's LockID equals `id`, else delegate to the
storer's Unlock, whose error is returned unchanged. -/
def Proxy.unlockState (c : Codec) (id : String) (s : S3) : Except PErr Unit × S3 :=
  match B2.Retrieve c s with
  | .error e => (.error (.unlockRetrieveFailed e), s)
  | .ok obj =>
    if obj.lockID ≠ id then (.error (.unlockConflict id obj.lockID), s)
    else
      match B2.Unlock c id s with
      | (.error e, s1) => (.error (.storerFailed e), s1)
      | (.ok _, s1) => (.ok (), s1)

/-- Errors of the earlier postState iteration that still compared the
number of bytes read against the declared content-length. -/
inductive V1Err where
  | invalidContentLength
  | invalidChecksum
  | errLocked
deriving DecidableEq

/-- The earlier `postState` iteration: io.Copy into the hash reports how
many bytes were actually read; a mismatch with the declared length `n`
is rejected before the checksum comparison, as its own error; then the
in-process lock map is consulted and the body stored. -/
def ProxyV1.postState (digest : List Nat → String) (locker : String → Bool)
    (id md5sum : String) (n : Int) (body : List Nat) : Except V1Err Unit :=
  if (body.length : Int) ≠ n then .error .invalidContentLength
  else if digest body ≠ md5sum then .error .invalidChecksum
  else if locker id then .error .errLocked
  else .ok ()

/-- A concrete executable codec used to instantiate witnesses:
length-prefixed lock id followed by the raw state bytes. -/
def testEnc (o : Object) : List Nat :=
  o.lockID.length :: (o.lockID.data.map Char.toNat ++ o.state)

def testDec (bs : List Nat) : Option Object :=
  match bs with
  | [] => none
  | k :: rest =>
    if k ≤ rest.length then
      some { lockID := String.mk ((rest.take k).map Char.ofNat), state := rest.drop k }
    else none

def testCodec : Codec := { enc := testEnc, dec := testDec }

/-- A concrete digest used to instantiate witnesses. -/
def testDigest : List Nat → String :=
  fun bs => if bs = [1, 2, 3] then "OK" else "NO"

end B2Proxy

namespace B2Proxy

/-- Claim C6: a POST whose computed base64-encoded digest of the received
body differs from the caller-supplied content-md5 header is rejected with
the invalid-checksum client error, and the returned state is the input
state unchanged — for every backend state `s`, failing backends included,
so no storage call can have contributed to the outcome. -/
theorem post_checksum_mismatch_rejected
    (c : Codec) (digest : List Nat → String) (lockID md5sum : String)
    (n : Int) (body : List Nat) (s : S3) (h : digest body ≠ md5sum) :
    Proxy.postState c digest lockID md5sum n body s = (.error .invalidChecksum, s) := by
  unfold Proxy.postState
  rw [if_pos h]

/-- Claim C1: when the stored object is locked with a non-empty token `A`,
a LOCK request with a different token `B` fails with a lock-conflict
error carrying the current holder `A`, whose rendered message names `A`,
and the stored object is unchanged. -/
theorem lock_conflict_names_holder
    (c : Codec) (s : S3) (bs : List Nat) (obj : Object) (A B : String)
    (hget : s.getFails = false) (hcell : s.cell = some bs)
    (hdec : c.dec bs = some obj) (hA : obj.lockID = A)
    (hAne : A ≠ "") (hBA : B ≠ A) :
    Proxy.lockState c B s = (.error (.lockConflict B A), s) ∧
    (PErr.lockConflict B A).message
      = "unable to lock with id " ++ B ++ "- file currently locked with lock ID " ++ A := by
  constructor
  · simp [Proxy.lockState, B2.Retrieve, S3.getObject, hget, hcell, hdec, hA, hAne]
  · rfl

/-- Claim C2 counterexample: with the object locked by "A", a second LOCK
with the same token "A" does not succeed — the protocol handler returns a
lock-conflict error. -/
theorem relock_same_token_rejected_cex :
    (Proxy.lockState testCodec "A" ⟨some (testEnc ⟨"A", []⟩), false, false⟩).1
        = .error (.lockConflict "A" "A") ∧
    (Proxy.lockState testCodec "A" ⟨some (testEnc ⟨"A", []⟩), false, false⟩).1
        ≠ .ok () := by decide

/-- Claim C2 (amended): re-acquiring with the token `A` that already
holds the lock is treated differently by the two layers — the protocol
handler `Proxy.lockState` rejects it with a lock-conflict error (it
rejects whenever the stored LockID is non-empty, even when it equals the
request token), while the storage adapter `B2.Lock` alone treats it as an
idempotent success that leaves the object locked by `A` with its payload
intact. -/
theorem relock_same_token_levels
    (c : Codec) (s : S3) (bs : List Nat) (obj : Object) (A : String)
    (hget : s.getFails = false) (hput : s.putFails = false)
    (hcell : s.cell = some bs) (hdec : c.dec bs = some obj)
    (hA : obj.lockID = A) (hAne : A ≠ "") :
    Proxy.lockState c A s = (.error (.lockConflict A A), s) ∧
    B2.Lock c A s = (.ok (), { s with cell := some (c.enc obj) }) := by
  subst hA
  constructor
  · simp [Proxy.lockState, B2.Retrieve, S3.getObject, hget, hcell, hdec, hAne]
  · simp [B2.Lock, S3.getObject, S3.putObject, hget, hput, hcell, hdec]

/-- Claim C3: the code violates the claim — when the final PutObject of
`B2.Lock` or `B2.Unlock` fails with a storage error, the operation still
returns success and the stored object is unchanged, because the source
discards the PutObject result and the error check after it tests the
stale GetObject error.  Demonstrated at a concrete input whose PutObject
call fails. -/
theorem lock_unlock_put_error_swallowed :
    B2.Lock testCodec "A" ⟨some (testEnc ⟨"", [7]⟩), false, true⟩
        = (.ok (), ⟨some (testEnc ⟨"", [7]⟩), false, true⟩) ∧
    B2.Unlock testCodec "A" ⟨some (testEnc ⟨"A", [7]⟩), false, true⟩
        = (.ok (), ⟨some (testEnc ⟨"A", [7]⟩), false, true⟩) ∧
    (S3.putObject ⟨some (testEnc ⟨"", [7]⟩), false, true⟩ (testCodec.enc ⟨"A", [7]⟩)).1
        = .error .ioError := by decide

/-- Claim C4 counterexample: a POST with non-empty token "A" on a path
with no existing object fails, but with a retrieval error wrapping the
not-found sentinel — not a lock-conflict error as the claim states — and
the store stays empty. -/
theorem post_absent_nonempty_id_cex :
    (Proxy.postState testCodec testDigest "A" "OK" 3 [1, 2, 3] ⟨none, false, false⟩).1
        = .error (.postRetrieveFailed .noExist) ∧
    PErr.isLockConflict (.postRetrieveFailed .noExist) = false ∧
    (Proxy.postState testCodec testDigest "A" "OK" 3 [1, 2, 3] ⟨none, false, false⟩).2.cell
        = none := by decide

/-- Claim C4 (amended): for a POST with a non-empty token `ID` whose
checksum passes: when the object does not exist the write fails with a
retrieval error (not a lock-conflict error) and the state is unchanged;
when the object exists with a different LockID the write fails with a
lock-conflict error and the state is unchanged; when the LockID equals
`ID` the new payload is stored with the lock token preserved. -/
theorem post_conditional_write_gating
    (c : Codec) (digest : List Nat → String) (body : List Nat) (md5sum : String)
    (n : Int) (ID : String) (hID : ID ≠ "") (hsum : digest body = md5sum) :
    (∀ s : S3, s.getFails = false → s.cell = none →
        Proxy.postState c digest ID md5sum n body s
          = (.error (.postRetrieveFailed .noExist), s)) ∧
    (∀ (s : S3) (bs : List Nat) (obj : Object),
        s.getFails = false → s.cell = some bs → c.dec bs = some obj →
        obj.lockID ≠ ID →
        Proxy.postState c digest ID md5sum n body s
          = (.error (.postLockConflict ID obj.lockID), s)) ∧
    (∀ (s : S3) (bs : List Nat) (obj : Object),
        s.getFails = false → s.putFails = false → s.cell = some bs →
        c.dec bs = some obj → obj.lockID = ID →
        Proxy.postState c digest ID md5sum n body s
          = (.ok (), { s with cell := some (c.enc { lockID := ID, state := body }) })) := by
  refine ⟨?_, ?_, ?_⟩
  · intro s hget hcell
    simp [Proxy.postState, B2.Retrieve, S3.getObject, hsum, hID, hget, hcell]
  · intro s bs obj hget hcell hdec hne
    simp [Proxy.postState, B2.Retrieve, S3.getObject, hsum, hID, hget, hcell, hdec,
      Ne.symm hne]
  · intro s bs obj hget hput hcell hdec heq
    simp [Proxy.postState, Proxy.storeNew, B2.Retrieve, B2.Store, S3.getObject,
      S3.putObject, hsum, hID, hget, hput, hcell, hdec, heq]

/-- Claim C5: an UNLOCK with token `id` on an existing object fails with
a lock-conflict error and leaves the state unchanged when the stored
LockID differs from `id`; when it equals `id` the release succeeds and
stores the object with LockID cleared to the empty string and the payload
preserved. -/
theorem unlock_release_semantics
    (c : Codec) (s : S3) (bs : List Nat) (obj : Object) (id : String)
    (hget : s.getFails = false) (hput : s.putFails = false)
    (hcell : s.cell = some bs) (hdec : c.dec bs = some obj) :
    (obj.lockID ≠ id →
        Proxy.unlockState c id s = (.error (.unlockConflict id obj.lockID), s)) ∧
    (obj.lockID = id →
        Proxy.unlockState c id s
          = (.ok (), { s with cell := some (c.enc { obj with lockID := "" }) })) := by
  constructor
  · intro hne
    simp [Proxy.unlockState, B2.Retrieve, S3.getObject, hget, hcell, hdec, hne]
  · intro heq
    simp [Proxy.unlockState, B2.Unlock, B2.Retrieve, S3.getObject, S3.putObject,
      hget, hput, hcell, hdec, heq]

/-- Claim C7: the final postState violates the claim — it receives the
declared content-length but never compares it against the bytes actually
read, so a POST whose body length differs from the declared length is
accepted and stored whenever the checksum matches.  The earlier iteration
`ProxyV1.postState` did reject such a request with an
invalid-content-length error distinct from the checksum error. -/
theorem post_length_mismatch_not_detected :
    (([1, 2, 3].length : Int) ≠ 5) ∧
    Proxy.postState testCodec testDigest "" "OK" 5 [1, 2, 3] ⟨none, false, false⟩
        = (.ok (), ⟨some (testEnc ⟨"", [1, 2, 3]⟩), false, false⟩) ∧
    ProxyV1.postState testDigest (fun _ => false) "" "OK" 5 [1, 2, 3]
        = .error .invalidContentLength ∧
    V1Err.invalidContentLength ≠ V1Err.invalidChecksum := by decide

/-- Claim C8: a LOCK on a path with no existing object succeeds and
stores a freshly created object whose LockID is the requested token and
whose payload is empty. -/
theorem lock_bootstrap_creates_object
    (c : Codec) (s : S3) (id : String)
    (hget : s.getFails = false) (hput : s.putFails = false) (hcell : s.cell = none) :
    Proxy.lockState c id s
      = (.ok (), { s with cell := some (c.enc { lockID := id, state := [] }) }) := by
  simp [Proxy.lockState, B2.Retrieve, B2.Store, S3.getObject, S3.putObject,
    hget, hput, hcell]

/-- Claim C9: storing an object and then serving a GET for it succeeds
and returns exactly the stored payload bytes, given the encoding/json
codec round-trips the object (the library contract). -/
theorem store_retrieve_roundtrip
    (c : Codec) (s : S3) (obj : Object)
    (hget : s.getFails = false) (hput : s.putFails = false)
    (hcodec : c.dec (c.enc obj) = some obj) :
    (B2.Store c obj s).1 = .ok () ∧
    Proxy.getState c (B2.Store c obj s).2 = .ok obj.state := by
  constructor
  · simp [B2.Store, S3.putObject, hput]
  · simp [Proxy.getState, B2.Retrieve, B2.Store, S3.getObject, S3.putObject,
      hget, hput, hcodec]

/-- Helper: whenever the store step of postState reports success, the
cell afterwards holds the encoding of the object built from the request
token and body. -/
theorem storeNew_ok_cell (c : Codec) (lockID : String) (bs : List Nat) (s s1 : S3)
    (h : Proxy.storeNew c lockID bs s = (.ok (), s1)) :
    s1.cell = some (c.enc { lockID := lockID, state := bs }) := by
  unfold Proxy.storeNew B2.Store S3.putObject at h
  by_cases hp : s.putFails = true
  · simp [hp] at h
  · simp [hp] at h
    simp [← h]

/-- Claim C10: every successful POST leaves the store holding the object
whose LockID is the request token and whose payload is the request body;
in particular a POST with the empty token on a currently locked object
succeeds unconditionally and overwrites the stored LockID with the empty
string, releasing the lock as a side effect. -/
theorem post_success_sets_lock_id
    (c : Codec) (digest : List Nat → String) (md5sum : String) (n : Int)
    (body : List Nat) :
    (∀ (lockID : String) (s s1 : S3),
        Proxy.postState c digest lockID md5sum n body s = (.ok (), s1) →
        s1.cell = some (c.enc { lockID := lockID, state := body })) ∧
    (∀ (s : S3) (bs : List Nat) (obj : Object),
        s.putFails = false → s.cell = some bs → c.dec bs = some obj →
        obj.lockID ≠ "" → digest body = md5sum →
        Proxy.postState c digest "" md5sum n body s
          = (.ok (), { s with cell := some (c.enc { lockID := "", state := body }) })) := by
  constructor
  · intro lockID s s1 h
    unfold Proxy.postState at h
    split at h
    · simp at h
    · split at h
      · split at h
        · simp at h
        · split at h
          · simp at h
          · exact storeNew_ok_cell c lockID body s s1 h
      · exact storeNew_ok_cell c lockID body s s1 h
  · intro s bs obj hput hcell hdec hne hsum
    simp [Proxy.postState, Proxy.storeNew, B2.Store, S3.putObject, hsum, hput]

/-- Witness for C1 at a concrete locked state. -/
theorem lock_conflict_names_holder_w :
    Proxy.lockState testCodec "B" ⟨some (testEnc ⟨"A", []⟩), false, false⟩
        = (.error (.lockConflict "B" "A"), ⟨some (testEnc ⟨"A", []⟩), false, false⟩) ∧
    (PErr.lockConflict "B" "A").message
        = "unable to lock with id " ++ "B" ++ "- file currently locked with lock ID " ++ "A" :=
  lock_conflict_names_holder testCodec ⟨some (testEnc ⟨"A", []⟩), false, false⟩
    (testEnc ⟨"A", []⟩) ⟨"A", []⟩ "A" "B" rfl rfl (by decide) rfl (by decide) (by decide)

/-- Witness for the amended C2 at a concrete locked state. -/
theorem relock_same_token_levels_w :
    Proxy.lockState testCodec "A" ⟨some (testEnc ⟨"A", [7]⟩), false, false⟩
        = (.error (.lockConflict "A" "A"), ⟨some (testEnc ⟨"A", [7]⟩), false, false⟩) ∧
    B2.Lock testCodec "A" ⟨some (testEnc ⟨"A", [7]⟩), false, false⟩
        = (.ok (), ⟨some (testEnc ⟨"A", [7]⟩), false, false⟩) :=
  relock_same_token_levels testCodec ⟨some (testEnc ⟨"A", [7]⟩), false, false⟩
    (testEnc ⟨"A", [7]⟩) ⟨"A", [7]⟩ "A" rfl rfl rfl (by decide) rfl (by decide)

/-- Witness for the amended C4 at concrete states for all three cases. -/
theorem post_conditional_write_gating_w :
    Proxy.postState testCodec testDigest "A" "OK" 3 [1, 2, 3] ⟨none, false, false⟩
        = (.error (.postRetrieveFailed .noExist), ⟨none, false, false⟩) ∧
    Proxy.postState testCodec testDigest "A" "OK" 3 [1, 2, 3]
        ⟨some (testEnc ⟨"B", [9]⟩), false, false⟩
        = (.error (.postLockConflict "A" "B"), ⟨some (testEnc ⟨"B", [9]⟩), false, false⟩) ∧
    Proxy.postState testCodec testDigest "A" "OK" 3 [1, 2, 3]
        ⟨some (testEnc ⟨"A", [9]⟩), false, false⟩
        = (.ok (), ⟨some (testEnc ⟨"A", [1, 2, 3]⟩), false, false⟩) := by
  have h := post_conditional_write_gating testCodec testDigest [1, 2, 3] "OK" 3 "A"
    (by decide) (by decide)
  exact ⟨h.1 ⟨none, false, false⟩ rfl rfl,
    h.2.1 ⟨some (testEnc ⟨"B", [9]⟩), false, false⟩ (testEnc ⟨"B", [9]⟩) ⟨"B", [9]⟩
      rfl rfl (by decide) (by decide),
    h.2.2 ⟨some (testEnc ⟨"A", [9]⟩), false, false⟩ (testEnc ⟨"A", [9]⟩) ⟨"A", [9]⟩
      rfl rfl rfl (by decide) rfl⟩

/-- Witness for C5 at concrete states for both cases. -/
theorem unlock_release_semantics_w :
    Proxy.unlockState testCodec "B" ⟨some (testEnc ⟨"A", [7]⟩), false, false⟩
        = (.error (.unlockConflict "B" "A"), ⟨some (testEnc ⟨"A", [7]⟩), false, false⟩) ∧
    Proxy.unlockState testCodec "A" ⟨some (testEnc ⟨"A", [7]⟩), false, false⟩
        = (.ok (), ⟨some (testEnc ⟨"", [7]⟩), false, false⟩) :=
  ⟨(unlock_release_semantics testCodec ⟨some (testEnc ⟨"A", [7]⟩), false, false⟩
      (testEnc ⟨"A", [7]⟩) ⟨"A", [7]⟩ "B" rfl rfl rfl (by decide)).1 (by decide),
   (unlock_release_semantics testCodec ⟨some (testEnc ⟨"A", [7]⟩), false, false⟩
      (testEnc ⟨"A", [7]⟩) ⟨"A", [7]⟩ "A" rfl rfl rfl (by decide)).2 rfl⟩

/-- Witness for C6 at a concrete mismatching request. -/
theorem post_checksum_mismatch_rejected_w :
    Proxy.postState testCodec testDigest "" "BAD" 3 [1, 2, 3] ⟨none, false, true⟩
        = (.error .invalidChecksum, ⟨none, false, true⟩) :=
  post_checksum_mismatch_rejected testCodec testDigest "" "BAD" 3 [1, 2, 3]
    ⟨none, false, true⟩ (by decide)

/-- Witness for C8 at a concrete empty store. -/
theorem lock_bootstrap_creates_object_w :
    Proxy.lockState testCodec "A" ⟨none, false, false⟩
        = (.ok (), ⟨some (testEnc ⟨"A", []⟩), false, false⟩) :=
  lock_bootstrap_creates_object testCodec ⟨none, false, false⟩ "A" rfl rfl rfl

/-- Witness for C9 with the concrete test codec. -/
theorem store_retrieve_roundtrip_w :
    (B2.Store testCodec ⟨"A", [7, 8]⟩ ⟨none, false, false⟩).1 = .ok () ∧
    Proxy.getState testCodec (B2.Store testCodec ⟨"A", [7, 8]⟩ ⟨none, false, false⟩).2
        = .ok [7, 8] :=
  store_retrieve_roundtrip testCodec ⟨none, false, false⟩ ⟨"A", [7, 8]⟩
    rfl rfl (by decide)

/-- Witness for C10 at a concrete locked state overwritten by an
unlocked write. -/
theorem post_success_sets_lock_id_w :
    (⟨some (testEnc ⟨"", [1, 2, 3]⟩), false, false⟩ : S3).cell
        = some (testCodec.enc ⟨"", [1, 2, 3]⟩) ∧
    Proxy.postState testCodec testDigest "" "OK" 3 [1, 2, 3]
        ⟨some (testEnc ⟨"A", [9]⟩), false, false⟩
        = (.ok (), ⟨some (testEnc ⟨"", [1, 2, 3]⟩), false, false⟩) := by
  have h := post_success_sets_lock_id testCodec testDigest "OK" 3 [1, 2, 3]
  exact ⟨h.1 "" ⟨some (testEnc ⟨"A", [9]⟩), false, false⟩
      ⟨some (testEnc ⟨"", [1, 2, 3]⟩), false, false⟩ (by decide),
    h.2 ⟨some (testEnc ⟨"A", [9]⟩), false, false⟩ (testEnc ⟨"A", [9]⟩) ⟨"A", [9]⟩
      rfl rfl (by decide) (by decide) (by decide)⟩

end B2Proxy
